import Mathlib

/-!
Shallow embedding of the analytics engine of `src/analytics.py` (the
Pancrepal repository): metric calculation, time-of-day segmentation,
recurring-pattern detection, weekly suggestions and the insight engine.

Modelling conventions:
* Python floats are modelled as exact rationals (`ℚ`); decimal literals such
  as `0.6` become the corresponding rationals (`6/10`).
* `timestamp` enters the engine only through `timestamp.hour` and
  `timestamp.date()`; a `LogEntry` therefore carries `hour : Nat` and a
  calendar day `day : Int`.
* `round(x, 1)` is modelled by `round1` below via Mathlib's `round`
  (Python rounds ties to even; ties are irrelevant to every verified claim).
* `statistics.stdev` is the sample standard deviation `√variance`; the square
  root is the only non-rational step, so the computable development carries
  the exact sample variance and the real-valued `std_dev_real` / `cv_real`
  are defined separately with `Real.sqrt`.
* Python dicts of fixed shape become structures; a key that may be absent
  (`None`) becomes an `Option` field.
-/

namespace Pancrepal

/-- `GLUCOSE_TARGET_MIN = 3.9` (analytics.py line 10). -/
def GLUCOSE_TARGET_MIN : ℚ := 39/10

/-- `GLUCOSE_TARGET_MAX = 10.0` (line 11). -/
def GLUCOSE_TARGET_MAX : ℚ := 10

/-- `GLUCOSE_HIGH_THRESHOLD = 11.1` (line 12). -/
def GLUCOSE_HIGH_THRESHOLD : ℚ := 111/10

/-- `GLUCOSE_LOW_THRESHOLD = 3.9` (line 13). -/
def GLUCOSE_LOW_THRESHOLD : ℚ := 39/10

/-- `GLUCOSE_VERY_LOW_THRESHOLD = 3.3` (line 14). -/
def GLUCOSE_VERY_LOW_THRESHOLD : ℚ := 33/10

/-- A `LogEntry` row as consumed by the analytics engine: the timestamp is
used only through its hour and calendar date, `carbs_grams is None` means
carbs were not tracked. -/
structure LogEntry where
  day : Int
  hour : Nat
  blood_glucose : ℚ
  meal_type : String
  mood : String
  carbs_grams : Option Nat
deriving DecidableEq, Repr

/-- Python `round(x, 1)`: round to one decimal place. -/
def round1 (x : ℚ) : ℚ := ((round (10 * x) : ℤ) : ℚ) / 10

/-- `[e.blood_glucose for e in entries]`. -/
def glucoseVals (l : List LogEntry) : List ℚ := l.map (·.blood_glucose)

/-- `statistics.mean(glucose_values)` (exact). -/
def meanGlucose (l : List LogEntry) : ℚ := (glucoseVals l).sum / (l.length : ℚ)

/-- The square of `statistics.stdev(glucose_values)` (sample variance,
`n - 1` divisor), and `0` when there are fewer than two readings, exactly as
lines 44–49 set `std_dev = 0` in that case. -/
def sampleVariance (l : List LogEntry) : ℚ :=
  if 1 < l.length then
    ((glucoseVals l).map (fun g => (g - meanGlucose l) ^ 2)).sum / ((l.length : ℚ) - 1)
  else 0

/-- `[e for e in entries if e.carbs_grams is not None]`. -/
def carbEntries (l : List LogEntry) : List LogEntry :=
  l.filter (fun e => e.carbs_grams.isSome)

/-- `sum(e.carbs_grams for e in entries_with_carbs)`. -/
def totalCarbs (l : List LogEntry) : Nat :=
  ((carbEntries l).map (fun e => e.carbs_grams.getD 0)).sum

/-- `total_carbs / len(entries_with_carbs)` (exact). -/
def avgCarbsPerEntryQ (l : List LogEntry) : ℚ :=
  (totalCarbs l : ℚ) / ((carbEntries l).length : ℚ)

/-- `len(set(e.timestamp.date() for e in entries_with_carbs))`. -/
def carbDays (l : List LogEntry) : Nat :=
  ((carbEntries l).map (·.day)).dedup.length

/-- `total_carbs / len(unique_dates) if unique_dates else 0` (exact). -/
def avgDailyCarbsQ (l : List LogEntry) : ℚ :=
  if 0 < carbDays l then (totalCarbs l : ℚ) / (carbDays l : ℚ) else 0

/-- Count of readings in `[GLUCOSE_TARGET_MIN, GLUCOSE_TARGET_MAX]` (line 51). -/
def inRangeCount (l : List LogEntry) : Nat :=
  (glucoseVals l).countP (fun g => decide (GLUCOSE_TARGET_MIN ≤ g) && decide (g ≤ GLUCOSE_TARGET_MAX))

/-- Count of readings strictly below `GLUCOSE_LOW_THRESHOLD` (line 54). -/
def hypoCount (l : List LogEntry) : Nat :=
  (glucoseVals l).countP (fun g => decide (g < GLUCOSE_LOW_THRESHOLD))

/-- Count of readings strictly above `GLUCOSE_TARGET_MAX` (line 58). -/
def hyperCount (l : List LogEntry) : Nat :=
  (glucoseVals l).countP (fun g => decide (GLUCOSE_TARGET_MAX < g))

/-- `time_in_range_pct` before rounding (line 52). -/
def tirPct (l : List LogEntry) : ℚ := ((inRangeCount l : ℚ) / (l.length : ℚ)) * 100

/-- `hypo_percentage` before rounding (line 56). -/
def hypoPctOf (l : List LogEntry) : ℚ := ((hypoCount l : ℚ) / (l.length : ℚ)) * 100

/-- `hyper_percentage` before rounding (line 60). -/
def hyperPctOf (l : List LogEntry) : ℚ := ((hyperCount l : ℚ) / (l.length : ℚ)) * 100

/-- `std_dev`: `statistics.stdev` when there are at least two readings,
otherwise `0` (lines 44–49). -/
noncomputable def std_dev_real (l : List LogEntry) : ℝ :=
  if 1 < l.length then Real.sqrt (sampleVariance l) else 0

/-- `coefficient_of_variation = (std_dev / mean) * 100 if mean > 0 else 0`,
and `0` when there are fewer than two readings (lines 44–49). -/
noncomputable def cv_real (l : List LogEntry) : ℝ :=
  if 1 < l.length then
    (if 0 < meanGlucose l then (std_dev_real l / ((meanGlucose l : ℚ) : ℝ)) * 100 else 0)
  else 0

/-- Computable decision of `coefficient_of_variation < c`: equivalent to
`cv_real l < c` (proved in `cvLtB_iff` below); the comparison is taken on
squares so that the definition stays executable. -/
def cvLtB (l : List LogEntry) (c : ℚ) : Bool :=
  if 1 < l.length then
    (if 0 < meanGlucose l then
      decide (sampleVariance l * 10000 < c ^ 2 * (meanGlucose l) ^ 2)
     else decide (0 < c))
  else decide (0 < c)

/-- The `status` classification of lines 73–81: first match wins. -/
def metricsStatus (l : List LogEntry) : String :=
  if 70 ≤ tirPct l ∧ cvLtB l 36 then "excellent"
  else if 50 ≤ tirPct l ∧ cvLtB l 50 then "good"
  else "needs_attention"

/-- The ordinal position of a status in the order
`needs_attention < good < excellent`. -/
def statusRank (s : String) : Nat :=
  if s == "excellent" then 2 else if s == "good" then 1 else 0

/-- The `trend` classification of lines 73–81. -/
def metricsTrend (l : List LogEntry) : String :=
  if 70 ≤ tirPct l ∧ cvLtB l 36 then "improving"
  else if 50 ≤ tirPct l ∧ cvLtB l 50 then "stable"
  else "needs_attention"

/-- The dictionary returned by `calculate_advanced_metrics` on non-empty
input (lines 83–99).  `variance` carries the exact sample variance; the dict
keys `std_dev` and `coefficient_of_variation` are `round1` of
`std_dev_real` / `cv_real`, which are functions of `variance`, `mean_glucose`
and `total_readings` alone. -/
structure MetricsStats where
  status : String
  trend : String
  mean_glucose : ℚ
  variance : ℚ
  time_in_range_pct : ℚ
  time_below_range_pct : ℚ
  time_above_range_pct : ℚ
  total_readings : Nat
  hypo_events : Nat
  hyper_events : Nat
  avg_carbs_per_entry : Option ℚ
  avg_daily_carbs : Option ℚ
  total_carbs : Nat
  entries_with_carbs : Nat
deriving DecidableEq, Repr

/-- The non-empty branch of `calculate_advanced_metrics` (lines 39–99).
`avg_carbs_per_entry` / `avg_daily_carbs` reproduce the Python truthiness
tests `round(x, 1) if x else None` of lines 95–96: the key is `None` both
when no entry tracked carbs (`x is None`) and when the average is `0.0`. -/
def metricsStats (l : List LogEntry) : MetricsStats where
  status := metricsStatus l
  trend := metricsTrend l
  mean_glucose := round1 (meanGlucose l)
  variance := sampleVariance l
  time_in_range_pct := round1 (tirPct l)
  time_below_range_pct := round1 (hypoPctOf l)
  time_above_range_pct := round1 (hyperPctOf l)
  total_readings := l.length
  hypo_events := hypoCount l
  hyper_events := hyperCount l
  avg_carbs_per_entry :=
    if carbEntries l ≠ [] ∧ avgCarbsPerEntryQ l ≠ 0 then some (round1 (avgCarbsPerEntryQ l)) else none
  avg_daily_carbs :=
    if carbEntries l ≠ [] ∧ avgDailyCarbsQ l ≠ 0 then some (round1 (avgDailyCarbsQ l)) else none
  total_carbs := totalCarbs l
  entries_with_carbs := (carbEntries l).length

/-- Result of `calculate_advanced_metrics`: either the no-data dict of
lines 33–37 or the full metrics dict. -/
inductive MetricsOut where
  | noData (message : String) : MetricsOut
  | stats (s : MetricsStats) : MetricsOut
deriving DecidableEq, Repr

/-- The `status` key, present in both shapes of the returned dict. -/
def MetricsOut.statusStr : MetricsOut → String
  | .noData _ => "no_data"
  | .stats s => s.status

/-- `calculate_advanced_metrics(entries)` (lines 21–99). -/
def calculate_advanced_metrics (l : List LogEntry) : MetricsOut :=
  if l = [] then .noData ("No data available for analysis") else .stats (metricsStats l)

/-- One value of the dictionary returned by `analyze_time_of_day`
(lines 364–405).  `avg_carbs` is `round(x)` to a whole number, hence `ℤ`. -/
structure PeriodMetrics where
  label : String
  time_range : String
  icon : String
  count : Nat
  avg_glucose : Option ℚ
  time_in_range_pct : Option ℚ
  hypo_pct : Option ℚ
  hyper_pct : Option ℚ
  avg_carbs : Option ℤ
  has_data : Bool
deriving DecidableEq, Repr

/-- The `if 5 <= hour < 12 / elif / elif / else` chain of lines 353–362. -/
def hourPeriod (h : Nat) : String :=
  if 5 ≤ h ∧ h < 12 then "morning"
  else if 12 ≤ h ∧ h < 18 then "afternoon"
  else if 18 ≤ h ∧ h < 23 then "evening"
  else "night"

/-- The bucket of entries assigned to period `p` (lines 351–362). -/
def periodBucket (l : List LogEntry) (p : String) : List LogEntry :=
  l.filter (fun e => hourPeriod e.hour == p)

/-- Per-period metrics (lines 364–405): on an empty bucket all derived
fields stay `none` and `has_data` stays `false`. -/
def periodStats (lab rng ico : String) (pe : List LogEntry) : PeriodMetrics :=
  if pe = [] then
    { label := lab, time_range := rng, icon := ico, count := 0,
      avg_glucose := none, time_in_range_pct := none, hypo_pct := none,
      hyper_pct := none, avg_carbs := none, has_data := false }
  else
    { label := lab, time_range := rng, icon := ico, count := pe.length,
      avg_glucose := some (round1 (meanGlucose pe)),
      time_in_range_pct := some (round1 (tirPct pe)),
      hypo_pct := some (round1 (hypoPctOf pe)),
      hyper_pct := some (round1 (hyperPctOf pe)),
      avg_carbs :=
        if carbEntries pe ≠ [] then some (round (avgCarbsPerEntryQ pe)) else none,
      has_data := true }

/-- The dictionary returned by `analyze_time_of_day`, keyed
morning/afternoon/evening/night in insertion order. -/
structure TimeAnalysis where
  morning : PeriodMetrics
  afternoon : PeriodMetrics
  evening : PeriodMetrics
  night : PeriodMetrics
deriving DecidableEq, Repr

/-- `analyze_time_of_day(entries)` (lines 322–407). -/
def analyze_time_of_day (l : List LogEntry) : TimeAnalysis where
  morning := periodStats ("Morning") ("5am – 12pm") ("🌅") (periodBucket l ("morning"))
  afternoon := periodStats ("Afternoon") ("12pm – 6pm") ("☀️") (periodBucket l ("afternoon"))
  evening := periodStats ("Evening") ("6pm – 11pm") ("🌆") (periodBucket l ("evening"))
  night := periodStats ("Night") ("11pm – 5am") ("🌙") (periodBucket l ("night"))

/-- The four period results in the dict's iteration order. -/
def periodsList (ta : TimeAnalysis) : List PeriodMetrics :=
  [ta.morning, ta.afternoon, ta.evening, ta.night]

/-- `[e for e in entries if 5 <= e.timestamp.hour < 12]` (line 248). -/
def morningEntries (l : List LogEntry) : List LogEntry :=
  l.filter (fun e => decide (5 ≤ e.hour) && decide (e.hour < 12))

/-- `[e for e in entries if 18 <= e.timestamp.hour < 23]` (line 249). -/
def eveningEntries (l : List LogEntry) : List LogEntry :=
  l.filter (fun e => decide (18 ≤ e.hour) && decide (e.hour < 23))

/-- Template string of the carb-tracking suggestion (line 253). -/
def SUGGESTION_TRACK_CARBS : String :=
  "🥖 Try tracking carbs more consistently. It really helps identify patterns!"

/-- Template string of the breakfast-logging suggestion (line 256). -/
def SUGGESTION_LOG_BREAKFAST : String :=
  "💡 Try logging breakfast readings more consistently. Morning data helps spot patterns!"

/-- Template string of the high-carb-dinners suggestion (line 264). -/
def SUGGESTION_HIGH_CARB_DINNERS : String :=
  "🌙 High carb dinners might be causing evening spikes. Try smaller portions or earlier timing."

/-- Template string of the stress suggestion (line 268). -/
def SUGGESTION_STRESS : String :=
  "💙 Stress might be affecting your glucose. Try some deep breathing when levels spike!"

/-- Template string of the default suggestion (line 270). -/
def SUGGESTION_DEFAULT : String :=
  "⭐ You\x27re building great habits! Keep logging to unlock more personalized insights."

/-- `[e for e in entries if e.mood == 'stressed' and e.blood_glucose > GLUCOSE_HIGH_THRESHOLD]`
(line 266). -/
def stressedHighEntries (l : List LogEntry) : List LogEntry :=
  l.filter (fun e => e.mood == "stressed" && decide (GLUCOSE_HIGH_THRESHOLD < e.blood_glucose))

/-- `generate_weekly_suggestion(entries)` (lines 243–270): a strict priority
chain, first match returns.  The float factors `0.3` and `0.2` are the
rationals `3/10` and `2/10`. -/
def generate_weekly_suggestion (entries : List LogEntry) : Option String :=
  if entries.length < 5 then none
  else if ((carbEntries entries).length : ℚ) < (entries.length : ℚ) * (3/10) then
    some SUGGESTION_TRACK_CARBS
  else if ((morningEntries entries).length : ℚ) < (entries.length : ℚ) * (2/10) then
    some SUGGESTION_LOG_BREAKFAST
  else if eveningEntries entries ≠ [] ∧ carbEntries (eveningEntries entries) ≠ [] ∧
      GLUCOSE_HIGH_THRESHOLD < meanGlucose (eveningEntries entries) ∧
      70 < avgCarbsPerEntryQ (eveningEntries entries) then
    some SUGGESTION_HIGH_CARB_DINNERS
  else if 3 ≤ (stressedHighEntries entries).length then
    some SUGGESTION_STRESS
  else some SUGGESTION_DEFAULT

/-- A pattern object of `identify_recurring_patterns`; the human-readable
`message` strings (Python f-strings over these same fields) are presentational
and not modelled. -/
structure Pattern where
  type : String
  context : String
  severity : String
deriving DecidableEq, Repr

/-- Keys of a Python `dict` built by insertion: the distinct values of `l` in
order of first occurrence. -/
def firstOccur (l : List String) : List String :=
  l.foldl (fun acc x => if x ∈ acc then acc else acc ++ [x]) []

/-- The keys of `meal_groups` (a `defaultdict` filled in input order,
lines 193–195) in iteration order. -/
def mealKeys (entries : List LogEntry) : List String :=
  firstOccur (entries.map (·.meal_type))

/-- `meal_groups[meal_type]`: the entries of one meal category, in input
order. -/
def mealGroup (entries : List LogEntry) (mt : String) : List LogEntry :=
  entries.filter (fun e => e.meal_type == mt)

/-- `high_count`: readings strictly above `GLUCOSE_HIGH_THRESHOLD` (line 203). -/
def hyperHighCount (l : List LogEntry) : Nat :=
  (glucoseVals l).countP (fun g => decide (GLUCOSE_HIGH_THRESHOLD < g))

/-- `low_count`: readings strictly below `GLUCOSE_VERY_LOW_THRESHOLD` (line 204). -/
def veryLowCount (l : List LogEntry) : Nat :=
  (glucoseVals l).countP (fun g => decide (g < GLUCOSE_VERY_LOW_THRESHOLD))

/-- The at-most-one pattern emitted for one meal category (lines 197–238):
groups with fewer than 2 records are skipped, then the carb test, the
recurring-high test (`0.6` = `6/10`), the recurring-low test (`0.5` = `5/10`)
and the in-range test fire first-match-wins. -/
def patternFor (mt : String) (g : List LogEntry) : Option Pattern :=
  if g.length < 2 then none
  else if 2 ≤ (carbEntries g).length ∧ 60 < avgCarbsPerEntryQ g ∧
      GLUCOSE_HIGH_THRESHOLD < meanGlucose g then
    some { type := "high_carb_high_glucose", context := mt, severity := "info" }
  else if (g.length : ℚ) * (6/10) ≤ (hyperHighCount g : ℚ) then
    some { type := "recurring_high", context := mt, severity := "info" }
  else if (g.length : ℚ) * (5/10) ≤ (veryLowCount g : ℚ) then
    some { type := "recurring_low", context := mt, severity := "warning" }
  else if GLUCOSE_TARGET_MIN ≤ meanGlucose g ∧ meanGlucose g ≤ GLUCOSE_TARGET_MAX then
    some { type := "in_range", context := mt, severity := "success" }
  else none

/-- `identify_recurring_patterns(entries)` (lines 186–240). -/
def identify_recurring_patterns (entries : List LogEntry) : List Pattern :=
  if entries.length < 3 then []
  else ((mealKeys entries).filterMap (fun mt => patternFor mt (mealGroup entries mt))).take 3

/-- An insight object of `generate_insights`; the presentational fields
(icon, title, message, action — interpolated text over the same data) are not
modelled, the `type` discriminator and `severity` are. -/
structure Insight where
  type : String
  severity : String
deriving DecidableEq, Repr

/-- `severity_order = dict(warning 0, info 1, success 2)` with
`.get(severity, 3)` (lines 635–636). -/
def severityRank (s : String) : Nat :=
  if s == "warning" then 0 else if s == "info" then 1 else if s == "success" then 2 else 3

/-- `x['time_in_range_pct']` of a period; rule 1/2 only read it on periods
with `has_data`, where `analyze_time_of_day` always stores a value. -/
def pTir (p : PeriodMetrics) : ℚ := p.time_in_range_pct.getD 0

/-- `{k: v for k, v in time_analysis.items() if v['has_data'] and v['count'] >= 3}`
(line 445), as the list of its values in iteration order. -/
def eligiblePeriods (ta : TimeAnalysis) : List PeriodMetrics :=
  (periodsList ta).filter (fun p => p.has_data && decide (3 ≤ p.count))

/-- Python `min(..., key=tir)`: the first element attaining the minimum. -/
def minByTir : List PeriodMetrics → Option PeriodMetrics
  | [] => none
  | x :: xs => some (xs.foldl (fun acc y => if pTir y < pTir acc then y else acc) x)

/-- Python `max(..., key=tir)`: the first element attaining the maximum. -/
def maxByTir : List PeriodMetrics → Option PeriodMetrics
  | [] => none
  | x :: xs => some (xs.foldl (fun acc y => if pTir acc < pTir y then y else acc) x)

/-- Rule 1 output. -/
def worstPeriodInsight : Insight := { type := "worst_period", severity := "warning" }

/-- Rule 2 output. -/
def bestPeriodInsight : Insight := { type := "best_period", severity := "success" }

/-- Rule 3 output. -/
def carbSpikeInsight : Insight := { type := "carb_spike", severity := "info" }

/-- Rule 4 output. -/
def mealPatternInsight : Insight := { type := "meal_pattern", severity := "warning" }

/-- Rule 5 output. -/
def hypoFrequencyInsight : Insight := { type := "hypo_frequency", severity := "warning" }

/-- Rule 6 output. -/
def nightHypoInsight : Insight := { type := "night_hypo", severity := "warning" }

/-- Rule 7 output. -/
def stressInsight : Insight := { type := "stress_correlation", severity := "info" }

/-- Rule 8 output. -/
def consistencyInsight : Insight := { type := "consistency", severity := "success" }

/-- Rules 1 and 2 (lines 443–483): among eligible periods the worst is
flagged when its in-range percentage is below 55, the best when its
percentage is at least 70 *and* it differs (as a dict value) from the worst. -/
def ruleWorstBest (ta : TimeAnalysis) : List Insight :=
  match minByTir (eligiblePeriods ta), maxByTir (eligiblePeriods ta) with
  | some worst, some best =>
      (if pTir worst < 55 then [worstPeriodInsight] else []) ++
      (if 70 ≤ pTir best ∧ best ≠ worst then [bestPeriodInsight] else [])
  | _, _ => []

/-- `[e for e in entries if e.carbs_grams is not None and e.carbs_grams > 60]`
(line 488). -/
def highCarbEntries (entries : List LogEntry) : List LogEntry :=
  entries.filter (fun e => match e.carbs_grams with | some c => decide (60 < c) | none => false)

/-- `spike_rate` of rule 3 (lines 490–491). -/
def spikeRate (entries : List LogEntry) : ℚ :=
  (((highCarbEntries entries).filter (fun e => decide (GLUCOSE_TARGET_MAX < e.blood_glucose))).length : ℚ) /
    ((highCarbEntries entries).length : ℚ)

/-- Rule 3 (lines 488–507): `0.55` is the rational `55/100`. -/
def ruleCarbSpike (entries : List LogEntry) : List Insight :=
  if 3 ≤ (highCarbEntries entries).length ∧ (55/100 : ℚ) < spikeRate entries then
    [carbSpikeInsight]
  else []

/-- The share of readings of one meal group above `GLUCOSE_TARGET_MAX`
(line 519). -/
def mealHighPct (entries : List LogEntry) (mt : String) : ℚ :=
  ((hyperCount (mealGroup entries mt) : ℚ)) / ((mealGroup entries mt).length : ℚ)

/-- Rule 4 (lines 512–535): scan meal categories in insertion order, skip
`'none'` and groups smaller than 5, emit for the first category whose high
share reaches `0.65` (= `65/100`) and stop. -/
def ruleMealPattern (entries : List LogEntry) : List Insight :=
  if ((mealKeys entries).find? (fun mt =>
      !(mt == "none") && decide (5 ≤ (mealGroup entries mt).length) &&
        decide ((65/100 : ℚ) ≤ mealHighPct entries mt))).isSome then
    [mealPatternInsight]
  else []

/-- `hypo_pct` of rule 5, with the `if total > 0 else 0` guard (line 542). -/
def hypoPctGuarded (entries : List LogEntry) : ℚ :=
  if 0 < entries.length then hypoPctOf entries else 0

/-- Rule 5 (lines 540–559). -/
def ruleHypo (entries : List LogEntry) : List Insight :=
  if 5 ≤ hypoPctGuarded entries ∨ 5 ≤ hypoCount entries then [hypoFrequencyInsight] else []

/-- Rule 6 (lines 564–580): `night_entries.get('has_data')` and
`night_entries.get('hypo_pct', 0) >= 8`. -/
def ruleNightHypo (ta : TimeAnalysis) : List Insight :=
  if ta.night.has_data ∧ 8 ≤ ta.night.hypo_pct.getD 0 then [nightHypoInsight] else []

/-- `[e for e in entries if e.mood == 'stressed']` (line 585). -/
def stressedEntries (entries : List LogEntry) : List LogEntry :=
  entries.filter (fun e => e.mood == "stressed")

/-- Rule 7 (lines 585–606): `0.9` is the rational `9/10`. -/
def ruleStress (entries : List LogEntry) : List Insight :=
  if 3 ≤ (stressedEntries entries).length ∧
      meanGlucose entries + 9/10 < meanGlucose (stressedEntries entries) then
    [stressInsight]
  else []

/-- `e.timestamp.date()` over the record set. -/
def daysOf (entries : List LogEntry) : List Int := entries.map (·.day)

/-- `min(unique_days)` (`0` on empty input, unreachable under the rule-8
guard). -/
def minDay (entries : List LogEntry) : Int :=
  match daysOf entries with
  | [] => 0
  | d :: ds => ds.foldl min d

/-- `max(unique_days)` (`0` on empty input, unreachable under the rule-8
guard). -/
def maxDay (entries : List LogEntry) : Int :=
  match daysOf entries with
  | [] => 0
  | d :: ds => ds.foldl max d

/-- `period_days = max((max - min).days + 1, 1)` (line 613). -/
def periodDays (entries : List LogEntry) : Int :=
  max (maxDay entries - minDay entries + 1) 1

/-- `logging_rate = len(unique_days) / period_days` (line 614). -/
def loggingRate (entries : List LogEntry) : ℚ :=
  ((daysOf entries).dedup.length : ℚ) / (periodDays entries : ℚ)

/-- Rule 8 (lines 611–630): `0.80` is the rational `4/5`. -/
def ruleConsistency (entries : List LogEntry) : List Insight :=
  if 14 ≤ entries.length ∧ (4/5 : ℚ) ≤ loggingRate entries then [consistencyInsight] else []

/-- The insight list built by the eight rules in evaluation order,
before sorting and truncation (lines 440–630). -/
def rawInsights (entries : List LogEntry) (ta : TimeAnalysis) : List Insight :=
  ruleWorstBest ta ++ ruleCarbSpike entries ++ ruleMealPattern entries ++
    ruleHypo entries ++ ruleNightHypo ta ++ ruleStress entries ++ ruleConsistency entries

/-- `insights.sort(key=lambda x: severity_order.get(x['severity'], 3))`
(lines 635–636): Python `list.sort` is stable, and a stable sort by a
four-valued key is exactly the concatenation of the key classes in key order
(proved sorted, a permutation, and order-preserving per class below). -/
def sortBySeverity (l : List Insight) : List Insight :=
  l.filter (fun i => severityRank i.severity == 0) ++
    l.filter (fun i => severityRank i.severity == 1) ++
    l.filter (fun i => severityRank i.severity == 2) ++
    l.filter (fun i => severityRank i.severity == 3)

/-- `generate_insights(entries, time_analysis)` (lines 414–638). -/
def generate_insights (entries : List LogEntry) (ta : TimeAnalysis) : List Insight :=
  if entries.length < 7 then []
  else (sortBySeverity (rawInsights entries ta)).take 5

/-- Concrete record of the C1 scenario: hour 19, glucose 13.0, carbs 90. -/
def eDinner19 : LogEntry :=
  { day := 0, hour := 19, blood_glucose := 13, meal_type := "dinner", mood := "calm",
    carbs_grams := some 90 }

/-- The C1 scenario input: exactly 5 such records. -/
def exC1 : List LogEntry := List.replicate 5 eDinner19

/-- A variant of the C1 record at a morning hour. -/
def eBreakfast8 : LogEntry :=
  { day := 0, hour := 8, blood_glucose := 13, meal_type := "breakfast", mood := "calm",
    carbs_grams := some 90 }

/-- The C1 scenario with one record moved into the morning window, so the
morning-coverage rule no longer fires. -/
def exC1Morning : List LogEntry := eBreakfast8 :: List.replicate 4 eDinner19

/-- A record whose carbs are tracked as exactly 0 grams. -/
def eZeroCarb : LogEntry :=
  { day := 0, hour := 12, blood_glucose := 7, meal_type := "none", mood := "calm",
    carbs_grams := some 0 }

/-- A record with 50 tracked carb grams. -/
def eFifty : LogEntry :=
  { day := 0, hour := 12, blood_glucose := 7, meal_type := "lunch", mood := "happy",
    carbs_grams := some 50 }

/-- An afternoon record without tracked carbs. -/
def eAfternoon : LogEntry :=
  { day := 0, hour := 13, blood_glucose := 7, meal_type := "none", mood := "calm",
    carbs_grams := none }

/-- Seven identical afternoon records: only the afternoon period is eligible
for the best/worst rules. -/
def exSeven : List LogEntry := List.replicate 7 eAfternoon

/-- Six records: below the insight engine's floor. -/
def exSix : List LogEntry := List.replicate 6 eAfternoon

/-- Two records: below the pattern detector's floor. -/
def exTwo : List LogEntry := List.replicate 2 eAfternoon

/-! ## Helper lemmas -/

theorem abs_round1_sub (x : ℚ) : |round1 x - x| ≤ 1/20 := by
  have h := abs_sub_round (10 * x)
  rw [abs_sub_comm] at h
  have e : round1 x - x = (((round (10 * x) : ℤ) : ℚ) - 10 * x) / 10 := by
    unfold round1; ring
  rw [e, abs_div, show |(10 : ℚ)| = 10 by norm_num]
  linarith

theorem counts_partition (l : List ℚ) :
    l.countP (fun g => decide (GLUCOSE_TARGET_MIN ≤ g) && decide (g ≤ GLUCOSE_TARGET_MAX)) +
      l.countP (fun g => decide (g < GLUCOSE_LOW_THRESHOLD)) +
      l.countP (fun g => decide (GLUCOSE_TARGET_MAX < g)) = l.length := by
  induction l with
  | nil => rfl
  | cons x xs ih =>
    simp only [List.countP_cons, List.length_cons]
    rcases lt_or_le x GLUCOSE_LOW_THRESHOLD with h1 | h1
    · have h2 : ¬ GLUCOSE_TARGET_MIN ≤ x := by
        rw [GLUCOSE_TARGET_MIN]; rw [GLUCOSE_LOW_THRESHOLD] at h1; exact not_le.mpr h1
      have h3 : ¬ GLUCOSE_TARGET_MAX < x := by
        rw [GLUCOSE_TARGET_MAX]; rw [GLUCOSE_LOW_THRESHOLD] at h1
        exact not_lt.mpr (le_trans h1.le (by norm_num))
      simp [h1, h2, h3]; omega
    · have h2 : GLUCOSE_TARGET_MIN ≤ x := by
        rw [GLUCOSE_TARGET_MIN]; rw [GLUCOSE_LOW_THRESHOLD] at h1; exact h1
      have h4 : ¬ x < GLUCOSE_LOW_THRESHOLD := not_lt.mpr h1
      rcases le_or_lt x GLUCOSE_TARGET_MAX with h5 | h5
      · simp [h2, h4, h5, not_lt.mpr h5]; omega
      · simp [h2, h4, h5, not_le.mpr h5]; omega

theorem length_cast_ne_zero {l : List LogEntry} (h : l ≠ []) : ((l.length : ℚ)) ≠ 0 := by
  exact_mod_cast (Nat.pos_of_ne_zero (fun hz => h (List.length_eq_zero.mp hz))).ne'

theorem carbEntries_sublength (l : List LogEntry) (h : carbEntries l ≠ []) :
    ((carbEntries l).length : ℚ) ≠ 0 :=
  length_cast_ne_zero h

theorem avgCarbs_eq_zero_iff (l : List LogEntry) (h : carbEntries l ≠ []) :
    avgCarbsPerEntryQ l = 0 ↔ totalCarbs l = 0 := by
  unfold avgCarbsPerEntryQ
  rw [div_eq_zero_iff]
  constructor
  · rintro (hz | hz)
    · exact_mod_cast hz
    · exact absurd hz (carbEntries_sublength l h)
  · intro hz; left; exact_mod_cast hz

theorem carbDays_pos (l : List LogEntry) (h : carbEntries l ≠ []) : 0 < carbDays l := by
  unfold carbDays
  rw [List.length_pos, ne_eq, List.dedup_eq_nil]
  simpa using h

theorem avgDaily_eq_zero_iff (l : List LogEntry) (h : carbEntries l ≠ []) :
    avgDailyCarbsQ l = 0 ↔ totalCarbs l = 0 := by
  unfold avgDailyCarbsQ
  rw [if_pos (carbDays_pos l h), div_eq_zero_iff]
  have hd : ((carbDays l : ℚ)) ≠ 0 := by exact_mod_cast (carbDays_pos l h).ne'
  constructor
  · rintro (hz | hz)
    · exact_mod_cast hz
    · exact absurd hz hd
  · intro hz; left; exact_mod_cast hz

/-! ## Claim theorems -/

/-- C9: on the empty record set, `calculate_advanced_metrics` reports status
`"no_data"` (not an error), `identify_recurring_patterns` returns the empty
list, and `generate_weekly_suggestion` returns `none`; every component is a
total function, so none raises. -/
theorem empty_input_sentinels :
    (calculate_advanced_metrics []).statusStr = "no_data" ∧
    identify_recurring_patterns [] = [] ∧
    generate_weekly_suggestion [] = none :=
  ⟨rfl, rfl, rfl⟩

/-- C1 counterexample: on exactly 5 records all at hour 19 with glucose 13.0
and tracked carbs 90, `generate_weekly_suggestion` returns the
breakfast-logging suggestion, not the high-carb-dinners suggestion: the
morning-coverage rule (0 morning records < 20 %) fires before the evening
rule is ever reached. -/
theorem c1_all_evening_counterexample :
    generate_weekly_suggestion exC1 = some SUGGESTION_LOG_BREAKFAST ∧
    generate_weekly_suggestion exC1 ≠ some SUGGESTION_HIGH_CARB_DINNERS := by
  have hm0 : morningEntries exC1 = [] := by
    simp [morningEntries, exC1, eDinner19, List.replicate_succ, List.filter_cons]
  have hcarb : carbEntries exC1 = exC1 := by
    simp [carbEntries, exC1, eDinner19, List.replicate_succ, List.filter_cons]
  have hlen : exC1.length = 5 := by simp [exC1]
  have hmain : generate_weekly_suggestion exC1 = some SUGGESTION_LOG_BREAKFAST := by
    unfold generate_weekly_suggestion
    rw [if_neg (by norm_num [hlen]), if_neg (by norm_num [hcarb, hlen]),
      if_pos (by norm_num [hm0, hlen])]
  refine ⟨hmain, ?_⟩
  rw [hmain]
  simp [SUGGESTION_LOG_BREAKFAST, SUGGESTION_HIGH_CARB_DINNERS]

/-- C1 amended: for 5 records with glucose 13.0 and tracked carbs 90, if all
sit at hour 19 the morning-coverage rule fires first and the breakfast
prompt is returned; once at least 20 % of the records are in the morning
window (4 at hour 19, one at hour 8) the high-carb-dinners suggestion is
returned. -/
theorem c1_high_carb_dinner_amended :
    generate_weekly_suggestion exC1 = some SUGGESTION_LOG_BREAKFAST ∧
    generate_weekly_suggestion exC1Morning = some SUGGESTION_HIGH_CARB_DINNERS := by
  constructor
  · have hm0 : morningEntries exC1 = [] := by
      simp [morningEntries, exC1, eDinner19, List.replicate_succ, List.filter_cons]
    have hcarb : carbEntries exC1 = exC1 := by
      simp [carbEntries, exC1, eDinner19, List.replicate_succ, List.filter_cons]
    have hlen : exC1.length = 5 := by simp [exC1]
    unfold generate_weekly_suggestion
    rw [if_neg (by norm_num [hlen]), if_neg (by norm_num [hcarb, hlen]),
      if_pos (by norm_num [hm0, hlen])]
  · have hm : morningEntries exC1Morning = [eBreakfast8] := by
      simp [morningEntries, exC1Morning, eBreakfast8, eDinner19, List.replicate_succ,
        List.filter_cons]
    have hcarb : carbEntries exC1Morning = exC1Morning := by
      simp [carbEntries, exC1Morning, eBreakfast8, eDinner19, List.replicate_succ,
        List.filter_cons]
    have hev : eveningEntries exC1Morning = List.replicate 4 eDinner19 := by
      simp [eveningEntries, exC1Morning, eBreakfast8, eDinner19, List.replicate_succ,
        List.filter_cons]
    have hlen : exC1Morning.length = 5 := by simp [exC1Morning, List.replicate_succ]
    have hevcarb : carbEntries (List.replicate 4 eDinner19) = List.replicate 4 eDinner19 := by
      simp [carbEntries, eDinner19, List.replicate_succ, List.filter_cons]
    have hmean : meanGlucose (List.replicate 4 eDinner19) = 13 := by
      norm_num [meanGlucose, glucoseVals, eDinner19, List.replicate_succ]
    have havg : avgCarbsPerEntryQ (List.replicate 4 eDinner19) = 90 := by
      norm_num [avgCarbsPerEntryQ, totalCarbs, carbEntries, eDinner19, List.replicate_succ,
        List.filter_cons]
    unfold generate_weekly_suggestion
    rw [if_neg (by norm_num [hlen]), if_neg (by norm_num [hcarb, hlen]),
      if_neg (by norm_num [hm, hlen]), if_pos]
    refine ⟨by rw [hev]; simp [List.replicate_succ],
      by rw [hev, hevcarb]; simp [List.replicate_succ], ?_, ?_⟩
    · rw [hev, hmean]; norm_num [GLUCOSE_HIGH_THRESHOLD]
    · rw [hev, havg]; norm_num

/-- C2 counterexample: a single record with carbs tracked as 0 grams has a
carb-tracked entry, yet both carb-average fields are reported absent — the
Python truthiness test `if avg_carbs_per_entry` collapses a zero average to
`None`, so "zero consumption" is *not* distinguishable from "no data". -/
theorem carb_fields_zero_counterexample :
    (metricsStats [eZeroCarb]).entries_with_carbs = 1 ∧
    (metricsStats [eZeroCarb]).avg_carbs_per_entry = none ∧
    (metricsStats [eZeroCarb]).avg_daily_carbs = none := by
  have hc : carbEntries [eZeroCarb] = [eZeroCarb] := by
    simp [carbEntries, eZeroCarb, List.filter_cons]
  have havg : avgCarbsPerEntryQ [eZeroCarb] = 0 := by
    norm_num [avgCarbsPerEntryQ, totalCarbs, carbEntries, eZeroCarb, List.filter_cons]
  have hdaily : avgDailyCarbsQ [eZeroCarb] = 0 := by
    norm_num [avgDailyCarbsQ, carbDays, totalCarbs, carbEntries, eZeroCarb, List.filter_cons]
  refine ⟨by rw [show (metricsStats [eZeroCarb]).entries_with_carbs =
      (carbEntries [eZeroCarb]).length from rfl, hc]; rfl, ?_, ?_⟩
  · show (if carbEntries [eZeroCarb] ≠ [] ∧ avgCarbsPerEntryQ [eZeroCarb] ≠ 0
        then some (round1 (avgCarbsPerEntryQ [eZeroCarb])) else none) = none
    rw [if_neg]
    simp [havg]
  · show (if carbEntries [eZeroCarb] ≠ [] ∧ avgDailyCarbsQ [eZeroCarb] ≠ 0
        then some (round1 (avgDailyCarbsQ [eZeroCarb])) else none) = none
    rw [if_neg]
    simp [hdaily]

/-- C2 amended: for every non-empty record set, the carb-average fields are
absent exactly when no entry tracked carbs *or* the tracked total is 0 grams
(Python truthiness), and total carbs is reported as 0 when no entries
tracked carbs. -/
theorem carb_fields_amended (l : List LogEntry) (h : l ≠ []) :
    calculate_advanced_metrics l = MetricsOut.stats (metricsStats l) ∧
    ((metricsStats l).avg_carbs_per_entry = none ↔ (carbEntries l = [] ∨ totalCarbs l = 0)) ∧
    ((metricsStats l).avg_daily_carbs = none ↔ (carbEntries l = [] ∨ totalCarbs l = 0)) ∧
    (carbEntries l = [] → (metricsStats l).total_carbs = 0) := by
  refine ⟨by simp [calculate_advanced_metrics, h], ?_, ?_, ?_⟩
  · show (if carbEntries l ≠ [] ∧ avgCarbsPerEntryQ l ≠ 0
        then some (round1 (avgCarbsPerEntryQ l)) else none) = none ↔ _
    split_ifs with hc
    · simp only [iff_false_intro (Option.some_ne_none _), false_iff]
      rintro (hz | hz)
      · exact hc.1 hz
      · exact hc.2 ((avgCarbs_eq_zero_iff l hc.1).mpr hz)
    · simp only [true_iff]
      rcases not_and_or.mp hc with hz | hz
      · left; simpa using hz
      · rcases eq_or_ne (carbEntries l) [] with he | he
        · left; exact he
        · right; exact (avgCarbs_eq_zero_iff l he).mp (not_ne_iff.mp hz)
  · show (if carbEntries l ≠ [] ∧ avgDailyCarbsQ l ≠ 0
        then some (round1 (avgDailyCarbsQ l)) else none) = none ↔ _
    split_ifs with hc
    · simp only [iff_false_intro (Option.some_ne_none _), false_iff]
      rintro (hz | hz)
      · exact hc.1 hz
      · exact hc.2 ((avgDaily_eq_zero_iff l hc.1).mpr hz)
    · simp only [true_iff]
      rcases not_and_or.mp hc with hz | hz
      · left; simpa using hz
      · rcases eq_or_ne (carbEntries l) [] with he | he
        · left; exact he
        · right; exact (avgDaily_eq_zero_iff l he).mp (not_ne_iff.mp hz)
  · intro he
    show totalCarbs l = 0
    unfold totalCarbs
    rw [he]
    rfl

/-- C2 amended, witnessed at concrete inputs: a record with 50 tracked grams
has its average field present, and a record set without tracked carbs
reports total carbs 0. -/
theorem carb_fields_amended_witness :
    ((metricsStats [eFifty]).avg_carbs_per_entry = none ↔
      (carbEntries [eFifty] = [] ∨ totalCarbs [eFifty] = 0)) ∧
    (metricsStats [eAfternoon]).total_carbs = 0 :=
  ⟨(carb_fields_amended [eFifty] (by decide)).2.1,
   (carb_fields_amended [eAfternoon] (by decide)).2.2.2 (by decide)⟩

/-- C4: for every non-empty record set the three reported percentages —
in range, below range, above range — sum to 100 up to the rounding error of
three one-decimal roundings (at most 0.05 each, so 0.15 in total): the three
glucose bands partition the readings, hence the exact percentages sum to
exactly 100. -/
theorem pct_sum_within_tolerance (l : List LogEntry) (h : l ≠ []) :
    |(metricsStats l).time_in_range_pct + (metricsStats l).time_below_range_pct +
        (metricsStats l).time_above_range_pct - 100| ≤ 3/20 := by
  have hn : ((l.length : ℚ)) ≠ 0 := length_cast_ne_zero h
  have hcounts : ((inRangeCount l : ℚ)) + (hypoCount l : ℚ) + (hyperCount l : ℚ) =
      (l.length : ℚ) := by
    have hc := counts_partition (glucoseVals l)
    have hlen : (glucoseVals l).length = l.length := List.length_map _ _
    exact_mod_cast (by rw [← hlen]; exact_mod_cast hc : _)
  have hsum : tirPct l + hypoPctOf l + hyperPctOf l = 100 := by
    unfold tirPct hypoPctOf hyperPctOf
    field_simp
    linarith [hcounts]
  have h1 := abs_round1_sub (tirPct l)
  have h2 := abs_round1_sub (hypoPctOf l)
  have h3 := abs_round1_sub (hyperPctOf l)
  show |round1 (tirPct l) + round1 (hypoPctOf l) + round1 (hyperPctOf l) - 100| ≤ 3/20
  have e : round1 (tirPct l) + round1 (hypoPctOf l) + round1 (hyperPctOf l) - 100 =
      (round1 (tirPct l) - tirPct l) + ((round1 (hypoPctOf l) - hypoPctOf l) +
        (round1 (hyperPctOf l) - hyperPctOf l)) := by
    linarith [hsum]
  rw [e]
  calc |(round1 (tirPct l) - tirPct l) + ((round1 (hypoPctOf l) - hypoPctOf l) +
        (round1 (hyperPctOf l) - hyperPctOf l))|
      ≤ |round1 (tirPct l) - tirPct l| + |(round1 (hypoPctOf l) - hypoPctOf l) +
        (round1 (hyperPctOf l) - hyperPctOf l)| := abs_add _ _
    _ ≤ |round1 (tirPct l) - tirPct l| + (|round1 (hypoPctOf l) - hypoPctOf l| +
        |round1 (hyperPctOf l) - hyperPctOf l|) := by
        exact add_le_add_left (abs_add _ _) _
    _ ≤ 1/20 + (1/20 + 1/20) := by linarith
    _ = 3/20 := by norm_num

/-- C4 witnessed at a concrete one-record input. -/
theorem pct_sum_within_tolerance_witness :
    ([eAfternoon] ≠ []) ∧
    |(metricsStats [eAfternoon]).time_in_range_pct +
        (metricsStats [eAfternoon]).time_below_range_pct +
        (metricsStats [eAfternoon]).time_above_range_pct - 100| ≤ 3/20 :=
  ⟨by decide, pct_sum_within_tolerance [eAfternoon] (by decide)⟩

theorem hourPeriod_cases (h : Nat) :
    hourPeriod h = "morning" ∨ hourPeriod h = "afternoon" ∨ hourPeriod h = "evening" ∨
      hourPeriod h = "night" := by
  unfold hourPeriod
  split_ifs <;> simp

theorem periodStats_count (lab rng ico : String) (pe : List LogEntry) :
    (periodStats lab rng ico pe).count = pe.length := by
  unfold periodStats
  split_ifs <;> simp_all

theorem periodStats_empty_fields (lab rng ico : String) (pe : List LogEntry)
    (h : (periodStats lab rng ico pe).count = 0) :
    (periodStats lab rng ico pe).avg_glucose = none ∧
      (periodStats lab rng ico pe).time_in_range_pct = none ∧
      (periodStats lab rng ico pe).hypo_pct = none ∧
      (periodStats lab rng ico pe).hyper_pct = none ∧
      (periodStats lab rng ico pe).avg_carbs = none ∧
      (periodStats lab rng ico pe).has_data = false := by
  have hpe : pe = [] := by
    have hc := periodStats_count lab rng ico pe
    rw [h] at hc
    exact List.length_eq_zero.mp hc.symm
  subst hpe
  unfold periodStats
  simp

theorem bucket_lengths_sum (l : List LogEntry) :
    (periodBucket l ("morning")).length + (periodBucket l ("afternoon")).length +
      (periodBucket l ("evening")).length + (periodBucket l ("night")).length = l.length := by
  induction l with
  | nil => rfl
  | cons e t ih =>
    unfold periodBucket at *
    rcases hourPeriod_cases e.hour with h | h | h | h <;>
      simp only [List.filter_cons, h, List.length_cons] <;> simp <;> omega

/-- C5: `analyze_time_of_day` assigns every record to exactly one period —
the four per-period counts sum exactly to the input length — and a period
without records reports count 0 with every derived numeric field absent. -/
theorem time_of_day_partition (entries : List LogEntry) :
    ((analyze_time_of_day entries).morning.count +
        (analyze_time_of_day entries).afternoon.count +
        (analyze_time_of_day entries).evening.count +
        (analyze_time_of_day entries).night.count = entries.length) ∧
    ∀ p ∈ periodsList (analyze_time_of_day entries), p.count = 0 →
      p.avg_glucose = none ∧ p.time_in_range_pct = none ∧ p.hypo_pct = none ∧
        p.hyper_pct = none ∧ p.avg_carbs = none ∧ p.has_data = false := by
  constructor
  · show (periodStats _ _ _ (periodBucket entries ("morning"))).count +
        (periodStats _ _ _ (periodBucket entries ("afternoon"))).count +
        (periodStats _ _ _ (periodBucket entries ("evening"))).count +
        (periodStats _ _ _ (periodBucket entries ("night"))).count = entries.length
    rw [periodStats_count, periodStats_count, periodStats_count, periodStats_count]
    exact bucket_lengths_sum entries
  · intro p hp hc
    simp only [periodsList, List.mem_cons, List.not_mem_nil, or_false] at hp
    rcases hp with rfl | rfl | rfl | rfl <;> exact periodStats_empty_fields _ _ _ _ hc

/-- C5 witnessed at a single afternoon record: the counts sum to 1 and the
empty morning period has every derived field absent. -/
theorem time_of_day_partition_witness :
    ((analyze_time_of_day [eAfternoon]).morning.count +
        (analyze_time_of_day [eAfternoon]).afternoon.count +
        (analyze_time_of_day [eAfternoon]).evening.count +
        (analyze_time_of_day [eAfternoon]).night.count = 1) ∧
    ((analyze_time_of_day [eAfternoon]).morning.avg_glucose = none ∧
      (analyze_time_of_day [eAfternoon]).morning.time_in_range_pct = none ∧
      (analyze_time_of_day [eAfternoon]).morning.hypo_pct = none ∧
      (analyze_time_of_day [eAfternoon]).morning.hyper_pct = none ∧
      (analyze_time_of_day [eAfternoon]).morning.avg_carbs = none ∧
      (analyze_time_of_day [eAfternoon]).morning.has_data = false) :=
  ⟨(time_of_day_partition [eAfternoon]).1,
   (time_of_day_partition [eAfternoon]).2 _ (by simp [periodsList])
     (by simp [analyze_time_of_day, periodStats, periodBucket, hourPeriod, eAfternoon,
       List.filter_cons])⟩

theorem patternFor_context (mt : String) (g : List LogEntry) (p : Pattern)
    (h : patternFor mt g = some p) : p.context = mt := by
  unfold patternFor at h
  split_ifs at h
  all_goals obtain rfl := Option.some.inj h
  all_goals rfl

theorem firstOccur_nodup (l : List String) : (firstOccur l).Nodup := by
  suffices h : ∀ acc : List String, acc.Nodup →
      (l.foldl (fun acc x => if x ∈ acc then acc else acc ++ [x]) acc).Nodup from
    h [] List.nodup_nil
  induction l with
  | nil => intro acc ha; exact ha
  | cons x t ih =>
    intro acc ha
    simp only [List.foldl_cons]
    by_cases hx : x ∈ acc
    · rw [if_pos hx]; exact ih acc ha
    · rw [if_neg hx]
      refine ih _ (List.nodup_append.mpr ⟨ha, List.nodup_singleton x, ?_⟩)
      intro a haa hax
      rw [List.mem_singleton.mp hax] at haa
      exact hx haa

theorem filterMap_context_sublist (keys : List String) (f : String → Option Pattern)
    (hf : ∀ mt p, f mt = some p → p.context = mt) :
    ((keys.filterMap f).map (·.context)).Sublist keys := by
  induction keys with
  | nil => simp
  | cons k t ih =>
    rw [List.filterMap_cons]
    cases hk : f k with
    | none => exact ih.cons k
    | some p =>
      rw [List.map_cons, hf k p hk]
      exact ih.cons₂ k

/-- C7: `identify_recurring_patterns` returns the empty list on fewer than 3
records, and otherwise at most 3 patterns with pairwise distinct meal
contexts, listed in the order the meal categories were first encountered
(their contexts form a sublist of the insertion-ordered category keys). -/
theorem patterns_spec (entries : List LogEntry) :
    (entries.length < 3 → identify_recurring_patterns entries = []) ∧
    (identify_recurring_patterns entries).length ≤ 3 ∧
    ((identify_recurring_patterns entries).map (·.context)).Sublist (mealKeys entries) ∧
    ((identify_recurring_patterns entries).map (·.context)).Nodup := by
  have hsub0 : (((mealKeys entries).filterMap
      (fun mt => patternFor mt (mealGroup entries mt))).map (·.context)).Sublist
        (mealKeys entries) :=
    filterMap_context_sublist _ _ (fun mt p h => patternFor_context mt _ p h)
  have hsub : ((identify_recurring_patterns entries).map (·.context)).Sublist
      (mealKeys entries) := by
    unfold identify_recurring_patterns
    split_ifs with h
    · simp
    · rw [List.map_take]
      exact (List.take_sublist 3 _).trans hsub0
  refine ⟨?_, ?_, hsub, ?_⟩
  · intro h; unfold identify_recurring_patterns; rw [if_pos h]
  · unfold identify_recurring_patterns
    split_ifs with h
    · simp
    · simp [List.length_take]
  · exact hsub.nodup (firstOccur_nodup _)

/-- C7 witnessed below the record floor. -/
theorem patterns_spec_witness :
    identify_recurring_patterns exTwo = [] ∧ (identify_recurring_patterns exTwo).length ≤ 3 :=
  ⟨(patterns_spec exTwo).1 (by decide), (patterns_spec exTwo).2.1⟩

theorem sampleVariance_nonneg (l : List LogEntry) : 0 ≤ sampleVariance l := by
  unfold sampleVariance
  split_ifs with h
  · apply div_nonneg
    · apply List.sum_nonneg
      intro x hx
      simp only [List.mem_map] at hx
      obtain ⟨g, _, rfl⟩ := hx
      positivity
    · have hcast : (1 : ℚ) < (l.length : ℚ) := by exact_mod_cast h
      linarith
  · exact le_rfl

theorem cvLtB_iff (l : List LogEntry) (c : ℚ) (hc : 0 < c) :
    cvLtB l c = true ↔ cv_real l < (c : ℚ) := by
  unfold cvLtB cv_real std_dev_real
  split_ifs with h1 h2
  · have hm : (0 : ℝ) < ((meanGlucose l : ℚ) : ℝ) := by exact_mod_cast h2
    have hcr : (0 : ℝ) < ((c : ℚ) : ℝ) := by exact_mod_cast hc
    rw [decide_eq_true_eq, ← Rat.cast_lt (K := ℝ)]
    push_cast
    rw [div_mul_eq_mul_div, div_lt_iff₀ hm,
      ← lt_div_iff₀ (show (0 : ℝ) < 100 by norm_num),
      Real.sqrt_lt' (by positivity), div_pow, mul_pow,
      show ((100 : ℝ)) ^ 2 = 10000 by norm_num,
      lt_div_iff₀ (show (0 : ℝ) < 10000 by norm_num)]
  · rw [decide_eq_true_eq]
    exact ⟨fun hh => by exact_mod_cast hh, fun hh => by exact_mod_cast hh⟩
  · rw [decide_eq_true_eq]
    exact ⟨fun hh => by exact_mod_cast hh, fun hh => by exact_mod_cast hh⟩

/-- C6: `status` is computed from the in-range percentage and the
coefficient of variation alone, and improving the in-range percentage while
not increasing the CV never downgrades it along
`needs_attention < good < excellent`. -/
theorem status_monotone (A B : List LogEntry) (_hA : A ≠ []) (_hB : B ≠ [])
    (htir : tirPct A ≤ tirPct B) (hcv : cv_real B ≤ cv_real A) :
    statusRank (metricsStatus A) ≤ statusRank (metricsStatus B) := by
  have h36 : cvLtB A 36 = true → cvLtB B 36 = true := fun hh =>
    (cvLtB_iff B 36 (by norm_num)).mpr (lt_of_le_of_lt hcv ((cvLtB_iff A 36 (by norm_num)).mp hh))
  have h50 : cvLtB A 50 = true → cvLtB B 50 = true := fun hh =>
    (cvLtB_iff B 50 (by norm_num)).mpr (lt_of_le_of_lt hcv ((cvLtB_iff A 50 (by norm_num)).mp hh))
  unfold metricsStatus
  by_cases a1 : 70 ≤ tirPct A ∧ cvLtB A 36 = true
  · have b1 : 70 ≤ tirPct B ∧ cvLtB B 36 = true := ⟨le_trans a1.1 htir, h36 a1.2⟩
    rw [if_pos a1, if_pos b1]
  · rw [if_neg a1]
    by_cases a2 : 50 ≤ tirPct A ∧ cvLtB A 50 = true
    · have b2 : 50 ≤ tirPct B ∧ cvLtB B 50 = true := ⟨le_trans a2.1 htir, h50 a2.2⟩
      rw [if_pos a2]
      by_cases b1 : 70 ≤ tirPct B ∧ cvLtB B 36 = true
      · rw [if_pos b1]
        simp [statusRank]
      · rw [if_neg b1, if_pos b2]
    · rw [if_neg a2]
      exact Nat.zero_le _

/-- C6 witnessed at a concrete pair of record sets. -/
theorem status_monotone_witness :
    ([eAfternoon] ≠ []) ∧ tirPct [eAfternoon] ≤ tirPct [eAfternoon] ∧
      cv_real [eAfternoon] ≤ cv_real [eAfternoon] ∧
      statusRank (metricsStatus [eAfternoon]) ≤ statusRank (metricsStatus [eAfternoon]) :=
  ⟨by decide, le_rfl, le_rfl,
   status_monotone [eAfternoon] [eAfternoon] (by decide) (by decide) le_rfl le_rfl⟩

theorem severityRank_cases (s : String) :
    severityRank s = 0 ∨ severityRank s = 1 ∨ severityRank s = 2 ∨ severityRank s = 3 := by
  unfold severityRank
  split_ifs <;> simp

theorem sortBySeverity_perm (l : List Insight) : (sortBySeverity l).Perm l := by
  induction l with
  | nil => rfl
  | cons i t ih =>
    rcases severityRank_cases i.severity with h | h | h | h <;>
      simp only [sortBySeverity, List.filter_cons, h] <;>
      simp only [show ((0 : Nat) == 0) = true from rfl, show ((0 : Nat) == 1) = false from rfl,
        show ((0 : Nat) == 2) = false from rfl, show ((0 : Nat) == 3) = false from rfl,
        show ((1 : Nat) == 0) = false from rfl, show ((1 : Nat) == 1) = true from rfl,
        show ((1 : Nat) == 2) = false from rfl, show ((1 : Nat) == 3) = false from rfl,
        show ((2 : Nat) == 0) = false from rfl, show ((2 : Nat) == 1) = false from rfl,
        show ((2 : Nat) == 2) = true from rfl, show ((2 : Nat) == 3) = false from rfl,
        show ((3 : Nat) == 0) = false from rfl, show ((3 : Nat) == 1) = false from rfl,
        show ((3 : Nat) == 2) = false from rfl, show ((3 : Nat) == 3) = true from rfl,
        if_true, if_false]
    · simp only [List.cons_append]
      exact ih.cons i
    · refine ((List.perm_middle.append_right _).append_right _).trans ?_
      simp only [List.cons_append]
      exact ih.cons i
    · refine (List.perm_middle.append_right _).trans ?_
      simp only [List.cons_append]
      exact ih.cons i
    · refine List.perm_middle.trans ?_
      exact ih.cons i

theorem filter_sev_rank_ne (l : List Insight) (s : String) (k : Nat)
    (hk : severityRank s ≠ k) :
    l.filter (fun i => (i.severity == s) && (severityRank i.severity == k)) = [] := by
  rw [List.filter_eq_nil_iff]
  intro a _
  simp only [Bool.and_eq_true, beq_iff_eq, not_and]
  intro h1 h2
  exact hk (h1 ▸ h2)

theorem filter_sev_rank_eq (l : List Insight) (s : String) (k : Nat)
    (hk : severityRank s = k) :
    l.filter (fun i => (i.severity == s) && (severityRank i.severity == k)) =
      l.filter (fun i => i.severity == s) := by
  apply List.filter_congr
  intro a _
  cases hsev : (a.severity == s) with
  | false => simp
  | true => simp [beq_iff_eq.mp hsev, hk]

theorem sortBySeverity_stable (l : List Insight) (s : String) :
    (sortBySeverity l).filter (fun i => i.severity == s) =
      l.filter (fun i => i.severity == s) := by
  unfold sortBySeverity
  rw [List.filter_append, List.filter_append, List.filter_append,
    List.filter_filter, List.filter_filter, List.filter_filter, List.filter_filter]
  rcases severityRank_cases s with h | h | h | h
  · rw [filter_sev_rank_eq l s 0 h, filter_sev_rank_ne l s 1 (by omega),
      filter_sev_rank_ne l s 2 (by omega), filter_sev_rank_ne l s 3 (by omega)]
    simp
  · rw [filter_sev_rank_ne l s 0 (by omega), filter_sev_rank_eq l s 1 h,
      filter_sev_rank_ne l s 2 (by omega), filter_sev_rank_ne l s 3 (by omega)]
    simp
  · rw [filter_sev_rank_ne l s 0 (by omega), filter_sev_rank_ne l s 1 (by omega),
      filter_sev_rank_eq l s 2 h, filter_sev_rank_ne l s 3 (by omega)]
    simp
  · rw [filter_sev_rank_ne l s 0 (by omega), filter_sev_rank_ne l s 1 (by omega),
      filter_sev_rank_ne l s 2 (by omega), filter_sev_rank_eq l s 3 h]
    simp

theorem mem_filter_rank (l : List Insight) (k : Nat) (a : Insight)
    (ha : a ∈ l.filter (fun i => severityRank i.severity == k)) :
    severityRank a.severity = k := by
  have h : (severityRank a.severity == k) = true := (List.mem_filter.mp ha).2
  exact beq_iff_eq.mp h

theorem pairwise_rank_block (l : List Insight) (k : Nat) :
    (l.filter (fun i => severityRank i.severity == k)).Pairwise
      (fun a b => severityRank a.severity ≤ severityRank b.severity) := by
  apply List.pairwise_of_forall_mem_list
  intro a ha b hb
  rw [mem_filter_rank l k a ha, mem_filter_rank l k b hb]

theorem sortBySeverity_sorted (l : List Insight) :
    (sortBySeverity l).Pairwise
      (fun a b => severityRank a.severity ≤ severityRank b.severity) := by
  unfold sortBySeverity
  rw [List.append_assoc, List.append_assoc]
  rw [List.pairwise_append]
  refine ⟨pairwise_rank_block l 0, ?_, ?_⟩
  · rw [List.pairwise_append]
    refine ⟨pairwise_rank_block l 1, ?_, ?_⟩
    · rw [List.pairwise_append]
      refine ⟨pairwise_rank_block l 2, pairwise_rank_block l 3, ?_⟩
      intro a ha b hb
      rw [mem_filter_rank l 2 a ha, mem_filter_rank l 3 b hb]
      omega
    · intro a ha b hb
      rw [List.mem_append] at hb
      rw [mem_filter_rank l 1 a ha]
      rcases hb with hb | hb
      · rw [mem_filter_rank l 2 b hb]; omega
      · rw [mem_filter_rank l 3 b hb]; omega
  · intro a ha b hb
    rw [List.mem_append, List.mem_append] at hb
    rw [mem_filter_rank l 0 a ha]
    exact Nat.zero_le _

/-- C3: `generate_insights` returns the empty list on fewer than 7 records;
it always returns at most 5 insights; the output is ordered so that every
warning precedes every info which precedes every success; and the output is
the first 5 elements of a stable severity sort of the rule outputs — a
permutation of the raw rule outputs, sorted by severity rank, preserving the
rule-evaluation order inside each severity class. -/
theorem insights_spec (entries : List LogEntry) (ta : TimeAnalysis) :
    (entries.length < 7 → generate_insights entries ta = []) ∧
    (generate_insights entries ta).length ≤ 5 ∧
    (generate_insights entries ta).Pairwise
      (fun a b => severityRank a.severity ≤ severityRank b.severity) ∧
    (7 ≤ entries.length →
      generate_insights entries ta = (sortBySeverity (rawInsights entries ta)).take 5) ∧
    (sortBySeverity (rawInsights entries ta)).Perm (rawInsights entries ta) ∧
    ∀ s : String, (sortBySeverity (rawInsights entries ta)).filter (fun i => i.severity == s) =
      (rawInsights entries ta).filter (fun i => i.severity == s) := by
  refine ⟨?_, ?_, ?_, ?_, sortBySeverity_perm _, fun s => sortBySeverity_stable _ s⟩
  · intro h
    unfold generate_insights
    rw [if_pos h]
  · unfold generate_insights
    split_ifs with h
    · simp
    · simp [List.length_take]
  · unfold generate_insights
    split_ifs with h
    · simp
    · exact (sortBySeverity_sorted _).sublist (List.take_sublist 5 _)
  · intro h
    unfold generate_insights
    rw [if_neg (not_lt.mpr h)]

/-- C3 witnessed: six records give the empty list and a seven-record input
obeys the cap. -/
theorem insights_spec_witness :
    generate_insights exSix (analyze_time_of_day exSix) = [] ∧
    (generate_insights exSeven (analyze_time_of_day exSeven)).length ≤ 5 :=
  ⟨(insights_spec exSix (analyze_time_of_day exSix)).1 (by decide),
   (insights_spec exSeven (analyze_time_of_day exSeven)).2.1⟩

theorem ruleCarbSpike_mem (entries : List LogEntry) (i : Insight)
    (h : i ∈ ruleCarbSpike entries) : i = carbSpikeInsight := by
  unfold ruleCarbSpike at h
  split_ifs at h
  · simpa using h
  · exact absurd h (List.not_mem_nil _)

theorem ruleMealPattern_mem (entries : List LogEntry) (i : Insight)
    (h : i ∈ ruleMealPattern entries) : i = mealPatternInsight := by
  unfold ruleMealPattern at h
  split_ifs at h
  · simpa using h
  · exact absurd h (List.not_mem_nil _)

theorem ruleHypo_mem (entries : List LogEntry) (i : Insight)
    (h : i ∈ ruleHypo entries) : i = hypoFrequencyInsight := by
  unfold ruleHypo at h
  split_ifs at h
  · simpa using h
  · exact absurd h (List.not_mem_nil _)

theorem ruleNightHypo_mem (ta : TimeAnalysis) (i : Insight)
    (h : i ∈ ruleNightHypo ta) : i = nightHypoInsight := by
  unfold ruleNightHypo at h
  split_ifs at h
  · simpa using h
  · exact absurd h (List.not_mem_nil _)

theorem ruleStress_mem (entries : List LogEntry) (i : Insight)
    (h : i ∈ ruleStress entries) : i = stressInsight := by
  unfold ruleStress at h
  split_ifs at h
  · simpa using h
  · exact absurd h (List.not_mem_nil _)

theorem ruleConsistency_mem (entries : List LogEntry) (i : Insight)
    (h : i ∈ ruleConsistency entries) : i = consistencyInsight := by
  unfold ruleConsistency at h
  split_ifs at h
  · simpa using h
  · exact absurd h (List.not_mem_nil _)

/-- C10: when exactly one time-of-day period is eligible (has data and at
least 3 records), the best-period success insight is never emitted: the
best period then coincides with the worst period, and rule 2 requires them
to differ, whether or not the worst-period warning fired. -/
theorem single_period_no_best (entries : List LogEntry) (ta : TimeAnalysis)
    (h : (eligiblePeriods ta).length = 1) :
    bestPeriodInsight ∉ generate_insights entries ta := by
  obtain ⟨p, hp⟩ := List.length_eq_one.mp h
  intro hmem
  unfold generate_insights at hmem
  split_ifs at hmem with hlen
  · exact absurd hmem (List.not_mem_nil _)
  · have hmem2 : bestPeriodInsight ∈ sortBySeverity (rawInsights entries ta) :=
      List.mem_of_mem_take hmem
    have hmem3 : bestPeriodInsight ∈ rawInsights entries ta :=
      (sortBySeverity_perm _).mem_iff.mp hmem2
    unfold rawInsights at hmem3
    simp only [List.mem_append] at hmem3
    rcases hmem3 with ((((((h1 | h2) | h3) | h4) | h5) | h6) | h7)
    · unfold ruleWorstBest at h1
      rw [hp] at h1
      simp only [minByTir, maxByTir, List.foldl_nil] at h1
      rcases List.mem_append.mp h1 with hw | hb
      · split_ifs at hw
        · simp [bestPeriodInsight, worstPeriodInsight] at hw
        · exact absurd hw (List.not_mem_nil _)
      · rw [if_neg (fun hc => hc.2 rfl)] at hb
        exact absurd hb (List.not_mem_nil _)
    · have := ruleCarbSpike_mem entries _ h2
      simp [bestPeriodInsight, carbSpikeInsight] at this
    · have := ruleMealPattern_mem entries _ h3
      simp [bestPeriodInsight, mealPatternInsight] at this
    · have := ruleHypo_mem entries _ h4
      simp [bestPeriodInsight, hypoFrequencyInsight] at this
    · have := ruleNightHypo_mem ta _ h5
      simp [bestPeriodInsight, nightHypoInsight] at this
    · have := ruleStress_mem entries _ h6
      simp [bestPeriodInsight, stressInsight] at this
    · have := ruleConsistency_mem entries _ h7
      simp [bestPeriodInsight, consistencyInsight] at this

/-- C10 witnessed: seven afternoon records make the afternoon period the
only eligible one, and no best-period insight is produced. -/
theorem single_period_no_best_witness :
    (eligiblePeriods (analyze_time_of_day exSeven)).length = 1 ∧
    bestPeriodInsight ∉ generate_insights exSeven (analyze_time_of_day exSeven) :=
  ⟨by simp [eligiblePeriods, periodsList, analyze_time_of_day, periodStats, periodBucket,
      hourPeriod, exSeven, eAfternoon, List.replicate_succ, List.filter_cons],
   single_period_no_best _ _
     (by simp [eligiblePeriods, periodsList, analyze_time_of_day, periodStats, periodBucket,
       hourPeriod, exSeven, eAfternoon, List.replicate_succ, List.filter_cons])⟩

theorem meanGlucose_perm {l l' : List LogEntry} (h : l.Perm l') :
    meanGlucose l = meanGlucose l' := by
  unfold meanGlucose glucoseVals
  rw [(h.map _).sum_eq, h.length_eq]

theorem sampleVariance_perm {l l' : List LogEntry} (h : l.Perm l') :
    sampleVariance l = sampleVariance l' := by
  unfold sampleVariance glucoseVals
  simp only [h.length_eq, meanGlucose_perm h]
  split_ifs with hc
  · rw [List.Perm.sum_eq ((h.map _).map _)]
  · rfl

theorem tirPct_perm {l l' : List LogEntry} (h : l.Perm l') : tirPct l = tirPct l' := by
  unfold tirPct inRangeCount glucoseVals
  rw [(h.map _).countP_eq, h.length_eq]

theorem hypoCount_perm {l l' : List LogEntry} (h : l.Perm l') : hypoCount l = hypoCount l' := by
  unfold hypoCount glucoseVals
  rw [(h.map _).countP_eq]

theorem hyperCount_perm {l l' : List LogEntry} (h : l.Perm l') : hyperCount l = hyperCount l' := by
  unfold hyperCount glucoseVals
  rw [(h.map _).countP_eq]

theorem hypoPctOf_perm {l l' : List LogEntry} (h : l.Perm l') : hypoPctOf l = hypoPctOf l' := by
  unfold hypoPctOf
  rw [hypoCount_perm h, h.length_eq]

theorem hyperPctOf_perm {l l' : List LogEntry} (h : l.Perm l') :
    hyperPctOf l = hyperPctOf l' := by
  unfold hyperPctOf
  rw [hyperCount_perm h, h.length_eq]

theorem carbEntries_perm {l l' : List LogEntry} (h : l.Perm l') :
    (carbEntries l).Perm (carbEntries l') := h.filter _

theorem carbEntries_nil_iff {l l' : List LogEntry} (h : l.Perm l') :
    carbEntries l = [] ↔ carbEntries l' = [] := by
  have hc := carbEntries_perm h
  constructor
  · intro hh
    rw [hh] at hc
    exact hc.symm.eq_nil
  · intro hh
    rw [hh] at hc
    exact hc.eq_nil

theorem totalCarbs_perm {l l' : List LogEntry} (h : l.Perm l') :
    totalCarbs l = totalCarbs l' := by
  unfold totalCarbs
  exact ((carbEntries_perm h).map _).sum_eq

theorem avgCarbsPerEntryQ_perm {l l' : List LogEntry} (h : l.Perm l') :
    avgCarbsPerEntryQ l = avgCarbsPerEntryQ l' := by
  unfold avgCarbsPerEntryQ
  rw [totalCarbs_perm h, (carbEntries_perm h).length_eq]

theorem carbDays_perm {l l' : List LogEntry} (h : l.Perm l') : carbDays l = carbDays l' := by
  unfold carbDays
  exact (((carbEntries_perm h).map _).dedup).length_eq

theorem avgDailyCarbsQ_perm {l l' : List LogEntry} (h : l.Perm l') :
    avgDailyCarbsQ l = avgDailyCarbsQ l' := by
  unfold avgDailyCarbsQ
  simp only [carbDays_perm h, totalCarbs_perm h]

theorem cvLtB_perm {l l' : List LogEntry} (h : l.Perm l') (c : ℚ) :
    cvLtB l c = cvLtB l' c := by
  unfold cvLtB
  simp only [h.length_eq, meanGlucose_perm h, sampleVariance_perm h]

theorem metricsStatus_perm {l l' : List LogEntry} (h : l.Perm l') :
    metricsStatus l = metricsStatus l' := by
  unfold metricsStatus
  simp only [tirPct_perm h, cvLtB_perm h]

theorem metricsTrend_perm {l l' : List LogEntry} (h : l.Perm l') :
    metricsTrend l = metricsTrend l' := by
  unfold metricsTrend
  simp only [tirPct_perm h, cvLtB_perm h]

theorem std_dev_real_perm {l l' : List LogEntry} (h : l.Perm l') :
    std_dev_real l = std_dev_real l' := by
  unfold std_dev_real
  simp only [h.length_eq, sampleVariance_perm h]

theorem cv_real_perm {l l' : List LogEntry} (h : l.Perm l') : cv_real l = cv_real l' := by
  unfold cv_real
  simp only [h.length_eq, meanGlucose_perm h, std_dev_real_perm h]

theorem metricsStats_perm {l l' : List LogEntry} (h : l.Perm l') :
    metricsStats l = metricsStats l' := by
  unfold metricsStats
  simp only [ne_eq, metricsStatus_perm h, metricsTrend_perm h, meanGlucose_perm h,
    sampleVariance_perm h, tirPct_perm h, hypoPctOf_perm h, hyperPctOf_perm h, h.length_eq,
    hypoCount_perm h, hyperCount_perm h, carbEntries_nil_iff h, avgCarbsPerEntryQ_perm h,
    avgDailyCarbsQ_perm h, totalCarbs_perm h, (carbEntries_perm h).length_eq]

theorem periodStats_perm (lab rng ico : String) {pe pe' : List LogEntry} (h : pe.Perm pe') :
    periodStats lab rng ico pe = periodStats lab rng ico pe' := by
  have hnil : pe = [] ↔ pe' = [] := by
    constructor
    · intro hh
      have hc := h
      rw [hh] at hc
      exact hc.symm.eq_nil
    · intro hh
      have hc := h
      rw [hh] at hc
      exact hc.eq_nil
  rcases eq_or_ne pe [] with hpe | hpe
  · have hpe' := hnil.mp hpe
    subst hpe
    subst hpe'
    rfl
  · have hpe' : pe' ≠ [] := fun hh => hpe (hnil.mpr hh)
    unfold periodStats
    rw [if_neg hpe, if_neg hpe']
    simp only [ne_eq, meanGlucose_perm h, tirPct_perm h, hypoPctOf_perm h, hyperPctOf_perm h,
      h.length_eq, carbEntries_nil_iff h, avgCarbsPerEntryQ_perm h]

theorem periodBucket_perm {l l' : List LogEntry} (h : l.Perm l') (p : String) :
    (periodBucket l p).Perm (periodBucket l' p) := h.filter _

theorem analyze_time_of_day_perm {l l' : List LogEntry} (h : l.Perm l') :
    analyze_time_of_day l = analyze_time_of_day l' := by
  unfold analyze_time_of_day
  rw [periodStats_perm _ _ _ (periodBucket_perm h ("morning")),
    periodStats_perm _ _ _ (periodBucket_perm h ("afternoon")),
    periodStats_perm _ _ _ (periodBucket_perm h ("evening")),
    periodStats_perm _ _ _ (periodBucket_perm h ("night"))]

/-- C8: under any permutation of the record list, `calculate_advanced_metrics`
(together with the derived real-valued standard deviation and coefficient of
variation) and `analyze_time_of_day` return identical results. -/
theorem perm_invariance (l l' : List LogEntry) (h : l.Perm l') :
    calculate_advanced_metrics l = calculate_advanced_metrics l' ∧
    std_dev_real l = std_dev_real l' ∧ cv_real l = cv_real l' ∧
    analyze_time_of_day l = analyze_time_of_day l' := by
  refine ⟨?_, std_dev_real_perm h, cv_real_perm h, analyze_time_of_day_perm h⟩
  unfold calculate_advanced_metrics
  by_cases hnil : l = []
  · have hnil' : l' = [] := by
      have hc := h
      rw [hnil] at hc
      exact hc.symm.eq_nil
    rw [if_pos hnil, if_pos hnil']
  · have hnil' : l' ≠ [] := by
      intro hh
      have hc := h
      rw [hh] at hc
      exact hnil hc.eq_nil
    rw [if_neg hnil, if_neg hnil', metricsStats_perm h]

/-- C8 witnessed at a concrete two-record swap. -/
theorem perm_invariance_witness :
    ([eAfternoon, eFifty].Perm [eFifty, eAfternoon]) ∧
    (calculate_advanced_metrics [eAfternoon, eFifty] =
        calculate_advanced_metrics [eFifty, eAfternoon] ∧
      std_dev_real [eAfternoon, eFifty] = std_dev_real [eFifty, eAfternoon] ∧
      cv_real [eAfternoon, eFifty] = cv_real [eFifty, eAfternoon] ∧
      analyze_time_of_day [eAfternoon, eFifty] = analyze_time_of_day [eFifty, eAfternoon]) :=
  ⟨List.Perm.swap eFifty eAfternoon [],
   perm_invariance _ _ (List.Perm.swap eFifty eAfternoon [])⟩

end Pancrepal
